import Mathlib

/-!
Shallow embedding of the focus-bot session workflow engine (src/main.py).

Conventions of the embedding:
* Python dicts holding per-action criterion scores become association lists
  (`List (String × ℕ)`); dict assignment is modelled by prepending, dict
  lookup by `List.lookup` (first match wins, i.e. the latest assignment).
* Python `None` becomes `Option.none`; Python truthiness of optional
  message ids (`if data.get("energy_msg_id") and ...`) is modelled by
  `truthy` (none and 0 are falsy).
* Side effects (Telegram sends, callback answers, message edits and log
  appends) are collected in an explicit `Effect` list, in program order.
* `threading.Timer` objects per participant become a `Timers` record:
  an entry is `some minutes` when armed and `none` when absent/cancelled
  (mirroring `timers[chat_id][key] = None`).
* Float arithmetic in `pick_best_local` is modelled over `ℚ`.  The three
  weights are 2.0, 1.0 and 0.6 and every score is an integer 1..5, so all
  exact totals lie on a grid of step 1/5; IEEE double rounding errors
  (< 1e-15 here) can neither merge two distinct grid points nor separate
  two syntactically identical sums, hence the `ℚ` model decides every
  comparison `total > best_score` exactly as the Python floats do.
* Code that would raise (KeyError / IndexError) returns `none` at the
  outermost `Option` layer.
-/

namespace FocusBot

/-- One candidate task, mirroring the dict
`{"name": ..., "type": ..., "scores": {...}}` built in `actions_input`. -/
structure Action where
  name : String
  type : Option String
  scores : List (String × ℕ)
deriving Repr, DecidableEq

/-- Python truthiness of an optional message id: `None` and `0` are falsy. -/
def truthy : Option ℕ → Bool
  | none => false
  | some n => n != 0

/-- `energy_weight` from src/main.py:
`{"low": 2.0, "mid": 1.0, "high": 0.6}.get(level, 1.0)`. -/
def energy_weight (level : String) : ℚ :=
  if level = "low" then 2
  else if level = "mid" then 1
  else if level = "high" then 0.6
  else 1

/-- The per-action total of `pick_best_local`:
`s["influence"]*2 + s["urgency"]*2 + s["meaning"]*1 + (6 - s["energy"]) * ew`.
`none` models the KeyError raised when a criterion score is missing. -/
def action_total (ew : ℚ) (a : Action) : Option ℚ :=
  match a.scores.lookup "energy", a.scores.lookup "influence",
        a.scores.lookup "urgency", a.scores.lookup "meaning" with
  | some e, some i, some u, some m =>
      some ((i : ℚ) * 2 + (u : ℚ) * 2 + (m : ℚ) * 1 + ((6 : ℚ) - (e : ℚ)) * ew)
  | _, _, _, _ => none

/-- The scan loop of `pick_best_local`: `best`/`best_score` accumulate, an
action replaces the incumbent only on a strict improvement
(`if total > best_score`). -/
def pick_best_loop (ew : ℚ) : List Action → Option Action → ℚ → Option (Option Action)
  | [], best, _ => some best
  | a :: rest, best, bestScore =>
      match action_total ew a with
      | none => none
      | some total =>
          if bestScore < total then pick_best_loop ew rest (some a) total
          else pick_best_loop ew rest best bestScore

/-- The session record `user_data[chat_id]` built by `reset_session`. -/
structure Session where
  step : String
  energy_now : Option String
  energy_msg_id : Option ℕ
  energy_locked : Bool
  actions : List Action
  cur_action : ℕ
  cur_crit : ℕ
  expected_type_msg_id : Option ℕ
  answered_type_msgs : List ℕ
  expected_score_msg_id : Option ℕ
  answered_score_msgs : List ℕ
  focus : Option String
  focus_type : Option String
  result_msg_id : Option ℕ
  result_locked : Bool
  check_count : ℕ
deriving Repr, DecidableEq

/-- `pick_best_local(data)` from src/main.py.  The Python line
`lvl = data.get("energy_now", "mid")` yields the stored value, possibly
`None`; since `energy_weight(None) = 1.0 = energy_weight("mid")`, collapsing
the `None` case to `"mid"` via `getD` is observationally identical. -/
def pick_best_local (data : Session) : Option (Option Action) :=
  pick_best_loop (energy_weight (data.energy_now.getD "mid")) data.actions none (-(10 ^ 9 : ℚ))

/-- A criterion score is present and within the keyboard range 1..5. -/
def scoreOk (a : Action) (k : String) : Bool :=
  match a.scores.lookup k with
  | some v => decide (1 ≤ v) && decide (v ≤ 5)
  | none => false

/-- All four criterion scores of an action are present and in 1..5. -/
def well_scored (a : Action) : Bool :=
  scoreOk a "influence" && scoreOk a "urgency" && scoreOk a "energy" && scoreOk a "meaning"

/-- The total of a fully scored action, as a plain value. -/
def totalD (ew : ℚ) (a : Action) : ℚ :=
  (action_total ew a).getD 0

/-- Refinement target for C1, following the spec text: energy level selects
a weight, low → 2.0, mid → 1.0, high → 0.6. -/
def specWeight (lvl : String) : ℚ :=
  if lvl = "low" then 2 else if lvl = "mid" then 1 else 0.6

/-- A criterion score read as a rational (0 when absent). -/
def scoreD (a : Action) (k : String) : ℚ :=
  (((a.scores.lookup k).getD 0 : ℕ) : ℚ)

/-- Refinement target for C1, following the spec text:
`total = influence*2 + urgency*2 + meaning*1 + (6 − energyScore) * weight`. -/
def specTotal (lvl : String) (a : Action) : ℚ :=
  scoreD a "influence" * 2 + scoreD a "urgency" * 2 + scoreD a "meaning" * 1 +
    (6 - scoreD a "energy") * specWeight lvl

/-- Side effects of a handler call, in program order.  `sendMessage` is an
outbound `bot.send_message`, `answerCallback` a `bot.answer_callback_query`,
`editMarkup`/`editText` the (try/except-wrapped, hence always attempted)
message edits, `logEvent` an append to the persistent log. -/
inductive Effect where
  | answerCallback : String → Effect
  | sendMessage : String → Effect
  | editMarkup : ℕ → Effect
  | editText : ℕ → String → Effect
  | logEvent : String → Option String → Effect
deriving Repr, DecidableEq

/-- The per-participant `timers[chat_id]` dict: each of the three keys is
either armed (`some minutes`) or absent/cancelled (`none`). -/
structure Timers where
  check : Option ℕ
  remind : Option ℕ
  support : Option ℕ
deriving Repr, DecidableEq

/-- `cancel_timer`: cancels the `threading.Timer` (if any) and stores `None`
under the key. -/
def cancel_timer (tm : Timers) (key : String) : Timers :=
  if key = "check" then { tm with check := none }
  else if key = "remind" then { tm with remind := none }
  else if key = "support" then { tm with support := none }
  else tm

/-- `cancel_all_timers`: cancels `check`, `remind` and `support`. -/
def cancel_all_timers (tm : Timers) : Timers :=
  cancel_timer (cancel_timer (cancel_timer tm "check") "remind") "support"

/-- `schedule_check`: cancel-then-arm the `check` timer. -/
def schedule_check (tm : Timers) (minutes : ℕ) : Timers :=
  { cancel_timer tm "check" with check := some minutes }

/-- `schedule_remind`: cancel-then-arm the `remind` timer. -/
def schedule_remind (tm : Timers) (minutes : ℕ) : Timers :=
  { cancel_timer tm "remind" with remind := some minutes }

/-- The body of the `check` closure inside `schedule_check`, run when the
timer fires: it sends the progress question and logs `check_sent`, and does
not touch the `timers` dict (the fired `Timer` object stays stored). -/
def fire_check (tm : Timers) (minutes : ℕ) : Timers × List Effect :=
  (tm, [Effect.sendMessage "Как идёт?",
        Effect.logEvent "check_sent" (some (toString minutes ++ "m"))])

/-- The body of the `remind` closure inside `schedule_remind`, run when the
timer fires: it sends the nudge and logs `reminder_sent`, and does not touch
the `timers` dict. -/
def fire_remind (tm : Timers) (minutes : ℕ) : Timers × List Effect :=
  (tm, [Effect.sendMessage "Можешь начать с самого маленького шага.",
        Effect.logEvent "reminder_sent" (some (toString minutes ++ "m"))])

/-- `FREE_DAILY_USES` from src/main.py. -/
def FREE_DAILY_USES : ℕ := 3

/-- `WEEK_DAILY_USES` from src/main.py. -/
def WEEK_DAILY_USES : ℕ := 5

/-- The `PLAN_TITLES` dict (total function; only the five keys occur). -/
def PLAN_TITLES (p : String) : String :=
  if p = "free" then "Free"
  else if p = "day" then "Day (пробная)"
  else if p = "week" then "Week"
  else if p = "month" then "Month"
  else if p = "two_month" then "2 Month"
  else p

/-- `can_use_today(chat_id)`.  The DB reads are abstracted as parameters:
`isAdmin` is `chat_id in ADMIN_IDS`, `plan` is `effective_plan(chat_id)`,
`used` is `count_today(chat_id, "focus")`. -/
def can_use_today (isAdmin : Bool) (plan : String) (used : ℕ) : Bool × String :=
  if isAdmin then (true, "")
  else if plan = "month" ∨ plan = "two_month" ∨ plan = "day" then (true, "")
  else if plan = "week" then
    if used < WEEK_DAILY_USES then (true, "")
    else (false,
      "⛔ Лимит на сегодня исчерпан.\n" ++
      "План: <b>" ++ PLAN_TITLES "week" ++ "</b>\n" ++
      "Лимит: <b>" ++ toString WEEK_DAILY_USES ++ "</b> раз/день.")
  else
    if used < FREE_DAILY_USES then (true, "")
    else (false,
      "⛔ Лимит на сегодня исчерпан.\n" ++
      "План: <b>" ++ PLAN_TITLES "free" ++ "</b>\n" ++
      "Лимит: <b>" ++ toString FREE_DAILY_USES ++ "</b> раза/день.")

/-- `reset_session(chat_id)`: the fresh session dict. -/
def reset_session : Session :=
  { step := "idle", energy_now := none, energy_msg_id := none,
    energy_locked := false, actions := [], cur_action := 0, cur_crit := 0,
    expected_type_msg_id := none, answered_type_msgs := [],
    expected_score_msg_id := none, answered_score_msgs := [], focus := none,
    focus_type := none, result_msg_id := none, result_locked := false,
    check_count := 0 }

/-- `start_energy_flow(chat_id)`.  `energyMsgId` is the message id Telegram
assigns to the energy prompt (`msg.message_id`). -/
def start_energy_flow (sess : Option Session) (tm : Timers) (isAdmin : Bool)
    (plan : String) (used : ℕ) (energyMsgId : ℕ) :
    Option Session × Timers × List Effect :=
  match can_use_today isAdmin plan used with
  | (false, reason) => (sess, tm, [Effect.sendMessage reason])
  | (true, _) =>
      (some { reset_session with
          step := "energy",
          energy_msg_id := some energyMsgId,
          energy_locked := false },
       cancel_all_timers tm,
       [Effect.sendMessage
          "Отлично 👍\nДавай сначала определим твою энергию,\nчтобы выбрать подходящее действие.",
        Effect.sendMessage "Твоя энергия сейчас?",
        Effect.logEvent "start_energy_flow" (some "ok")])

/-- `energy_label` from src/main.py. -/
def energy_label (code : String) : String :=
  if code = "high" then "🔋 Высокая"
  else if code = "mid" then "😐 Средняя"
  else if code = "low" then "🪫 Низкая"
  else code

/-- `type_label` from src/main.py (`.get(t or "", "—")`). -/
def type_label (t : Option String) : String :=
  if t = some "mental" then "🧠 Умственное"
  else if t = some "physical" then "💪 Физическое"
  else if t = some "routine" then "🗂 Рутинное"
  else if t = some "social" then "💬 Общение"
  else "—"

/-- The `energy_pick` callback handler.  `msgId` is
`call.message.message_id`, `lvl` the payload after `"energy:"`. -/
def energy_pick (data : Option Session) (msgId : ℕ) (lvl : String) :
    Option Session × List Effect :=
  match data with
  | none => (none, [Effect.answerCallback "Нажми 🚀 Начать действие"])
  | some d =>
      if d.step ≠ "energy" then
        (some d, [Effect.answerCallback "Нажми 🚀 Начать действие"])
      else if truthy d.energy_msg_id = true ∧ d.energy_msg_id ≠ some msgId then
        (some d, [Effect.answerCallback "Это старое сообщение"])
      else if d.energy_locked = true then
        (some d, [Effect.answerCallback "✅ Энергия уже выбрана"])
      else
        (some { d with energy_now := some lvl, energy_locked := true, step := "actions" },
         [Effect.logEvent "energy" (some lvl),
          Effect.editMarkup msgId,
          Effect.editText msgId ("✅ Энергия: <b>" ++ energy_label lvl ++ "</b>"),
          Effect.answerCallback "Ок ✅",
          Effect.sendMessage "✍️ Напиши <b>минимум 3</b> действия (каждое с новой строки):"])

/-- The `MENU_TEXTS` set. -/
def MENU_TEXTS : List String :=
  ["🚀 Начать действие", "⭐ Premium", "👤 Профиль", "📊 Статистика", "❓ Как пользоваться"]

/-- Python `str.strip()` on the whitespace classes that occur here. -/
def py_strip (s : String) : String :=
  String.mk (((s.data.dropWhile Char.isWhitespace).reverse.dropWhile Char.isWhitespace).reverse)

/-- Python `text.split("\n")`. -/
def py_split_newline (s : String) : List String :=
  (s.data.splitOn (Char.ofNat 10)).map String.mk

/-- `CRITERIA` from src/main.py. -/
def CRITERIA : List (String × String) :=
  [("influence", "Влияние (польза для результата)"),
   ("urgency", "Срочность (насколько важно сейчас)"),
   ("energy", "Затраты сил (насколько тяжело сделать)"),
   ("meaning", "Смысл (важно лично тебе)")]

/-- The `HINTS` dict (`HINTS.get(key, "")`). -/
def HINTS (k : String) : String :=
  if k = "influence" then "1 = почти не поможет, 5 = сильно продвинет"
  else if k = "urgency" then "1 = можно позже, 5 = нужно сейчас/сегодня"
  else if k = "energy" then "1 = легко, 5 = очень тяжело по силам"
  else if k = "meaning" then "1 = не важно, 5 = очень важно для тебя"
  else ""

/-- `ask_action_type(chat_id)`: sends the type prompt for the current action
and records its message id as the live type binding.  `none` models the
IndexError when `cur_action` is out of range. -/
def ask_action_type (d : Session) (freshId : ℕ) : Option (Session × List Effect) :=
  match d.actions.get? d.cur_action with
  | none => none
  | some a =>
      some ({ d with expected_type_msg_id := some freshId },
        [Effect.sendMessage ("Выбери тип для:\n<b>" ++ a.name ++ "</b>")])

/-- `ask_next_score(chat_id)`: sends the score prompt for the current
action/criterion and records its id as the live score binding. -/
def ask_next_score (d : Session) (freshId : ℕ) : Option (Session × List Effect) :=
  match d.actions.get? d.cur_action, CRITERIA.get? d.cur_crit with
  | some a, some kt =>
      some ({ d with expected_score_msg_id := some freshId },
        [Effect.sendMessage
          ("Действие: <b>" ++ a.name ++ "</b>\n" ++
           "Тип: <b>" ++ type_label a.type ++ "</b>\n\n" ++
           "Оцени: <b>" ++ kt.2 ++ "</b>\n" ++
           "<i>" ++ HINTS kt.1 ++ "</i>")])
  | _, _ => none

/-- The `actions_input` message handler (dispatched while the step is
`"actions"`); `text` is `m.text or ""`. -/
def actions_input (d : Session) (text : String) (freshId : ℕ) :
    Option (Session × List Effect) :=
  if py_strip text ∈ MENU_TEXTS then some (d, [])
  else
    let lines := ((py_split_newline text).map py_strip).filter (fun x => x != "")
    if lines.length < 3 ∨ lines.length > 7 then
      some (d, [Effect.sendMessage "Нужно <b>3–7</b> действий. Каждое с новой строки."])
    else
      let d1 := { d with
        actions := lines.map (fun a => { name := a, type := none, scores := [] }),
        cur_action := 0, cur_crit := 0, step := "typing",
        answered_type_msgs := [], expected_type_msg_id := none }
      match ask_action_type d1 freshId with
      | none => none
      | some (d2, effs) =>
          some (d2, Effect.logEvent "actions_count" (some (toString lines.length)) :: effs)

/-- The `type_pick` callback handler.  `t` is the payload after `"type:"`,
`freshId` the id of the next prompt message sent (if any). -/
def type_pick (data : Option Session) (msgId : ℕ) (t : String) (freshId : ℕ) :
    Option (Option Session × List Effect) :=
  match data with
  | none => some (none, [Effect.answerCallback "Нажми 🚀 Начать действие"])
  | some d =>
      if d.step ≠ "typing" then
        some (some d, [Effect.answerCallback "Нажми 🚀 Начать действие"])
      else if truthy d.expected_type_msg_id = true ∧ d.expected_type_msg_id ≠ some msgId then
        some (some d, [Effect.answerCallback "Это старое сообщение"])
      else if msgId ∈ d.answered_type_msgs then
        some (some d, [Effect.answerCallback "✅ Уже выбрано"])
      else
        match d.actions.get? d.cur_action with
        | none => none
        | some a =>
            let d1 := { d with
              actions := d.actions.set d.cur_action { a with type := some t },
              answered_type_msgs := d.answered_type_msgs.insert msgId }
            let effs := [Effect.logEvent "type" (some t),
              Effect.editMarkup msgId,
              Effect.editText msgId ("✅ <b>" ++ a.name ++ "</b> — " ++ type_label (some t)),
              Effect.answerCallback "Ок ✅"]
            let d2 := { d1 with cur_action := d1.cur_action + 1 }
            if d2.cur_action ≥ d2.actions.length then
              let d3 := { d2 with
                cur_action := 0, cur_crit := 0, step := "scoring",
                answered_score_msgs := [] }
              match ask_next_score d3 freshId with
              | none => none
              | some (d4, effs2) => some (some d4, effs ++ effs2)
            else
              match ask_action_type d2 freshId with
              | none => none
              | some (d4, effs2) => some (some d4, effs ++ effs2)

/-- `show_result(chat_id)`: computes the focus action, logs the quota event
and sends the result message (whose id becomes the live result binding).
`none` models the crashes when the list is empty or scores are missing. -/
def show_result (d : Session) (freshId : ℕ) : Option (Session × List Effect) :=
  let d1 := { d with step := "result", result_locked := false }
  match pick_best_local d1 with
  | some (some best) =>
      some ({ d1 with
          focus := some best.name, focus_type := best.type,
          result_msg_id := some freshId },
        [Effect.logEvent "focus" (some best.name),
         Effect.sendMessage
           ("🔥 <b>Главное действие сейчас:</b>\n\n<b>" ++ best.name ++
            "</b>\nТип: <b>" ++ type_label best.type ++ "</b>")])
  | _ => none

/-- The `score_pick` callback handler.  `score` is the integer parsed from
the payload after `"score:"` (the keyboard only offers 1–5). -/
def score_pick (data : Option Session) (msgId : ℕ) (score : ℕ) (freshId : ℕ) :
    Option (Option Session × List Effect) :=
  match data with
  | none => some (none, [Effect.answerCallback "Сейчас не время 🙂"])
  | some d =>
      if d.step ≠ "scoring" then
        some (some d, [Effect.answerCallback "Сейчас не время 🙂"])
      else if truthy d.expected_score_msg_id = true ∧ d.expected_score_msg_id ≠ some msgId then
        some (some d, [Effect.answerCallback "Это старое сообщение"])
      else if msgId ∈ d.answered_score_msgs then
        some (some d, [Effect.answerCallback "✅ Уже выбрано"])
      else
        match d.actions.get? d.cur_action, CRITERIA.get? d.cur_crit with
        | some a, some kt =>
            let d1 := { d with
              actions := d.actions.set d.cur_action { a with scores := (kt.1, score) :: a.scores },
              answered_score_msgs := d.answered_score_msgs.insert msgId }
            let effs := [Effect.logEvent "score" (some (kt.1 ++ "=" ++ toString score)),
              Effect.editMarkup msgId,
              Effect.editText msgId
                ("✅ <b>" ++ a.name ++ "</b>\n" ++ kt.2 ++ ": <b>" ++ toString score ++ "</b>"),
              Effect.answerCallback "Ок ✅"]
            let d2 := { d1 with cur_crit := d1.cur_crit + 1 }
            if d2.cur_crit ≥ CRITERIA.length then
              let d3 := { d2 with cur_crit := 0, cur_action := d2.cur_action + 1 }
              if d3.cur_action ≥ d3.actions.length then
                match show_result d3 freshId with
                | none => none
                | some (d4, effs2) => some (some d4, effs ++ effs2)
              else
                match ask_next_score d3 freshId with
                | none => none
                | some (d4, effs2) => some (some d4, effs ++ effs2)
            else
              match ask_next_score d2 freshId with
              | none => none
              | some (d4, effs2) => some (some d4, effs ++ effs2)
        | _, _ => none

/-- `MOTIVATION_START_BY_TYPE` from src/main.py. -/
def MOTIVATION_START_BY_TYPE (t : String) : List String :=
  if t = "mental" then
    ["Сейчас цель — войти в поток, не решить всё. Начни с 1 простого шага.",
     "Сделай черновик/набросок. Потом улучшим.",
     "Только 10 минут фокуса. Без оценки результата."]
  else if t = "physical" then
    ["Начни мягко. Первые минуты — разогрев, дальше само пойдёт.",
     "Сейчас важна регулярность, а не интенсивность.",
     "Сделай 1 подход/1 круг. Потом решишь, продолжать ли."]
  else if t = "routine" then
    ["Сделай один конкретный кусок и закрой тему.",
     "Начни с самого мелкого шага — он разгонит.",
     "Сейчас не “идеально”, сейчас — “закончено”."]
  else if t = "social" then
    ["Твоя цель — начать, не быть идеальным.",
     "Одно короткое сообщение достаточно. Дальше легче.",
     "Скажи просто и по делу. Без лишних объяснений."]
  else []

/-- `pick(pool, t)` from src/main.py; `random.choice` is modelled by an
index `rand` reduced modulo the pool size. -/
def pick (pool : String → List String) (t : Option String) (rand : ℕ) : String :=
  match pool (t.getD "") with
  | [] => "Сделай самый маленький шаг. Этого достаточно."
  | x :: xs => (x :: xs).getD (rand % (x :: xs).length) x

/-- `data.get("focus") or "это действие"` (Python `or`: `None` and the empty
string both fall back). -/
def focus_fallback (d : Session) : String :=
  match d.focus with
  | some f => if f = "" then "это действие" else f
  | none => "это действие"

/-- The `result_actions` callback handler.  `plan` is
`effective_plan(chat_id)`, `cmd` the payload after `"res:"`, `rand` the
`random.choice` draw used by the start branch. -/
def result_actions (data : Option Session) (tm : Timers) (plan : String)
    (msgId : ℕ) (cmd : String) (rand : ℕ) :
    Option Session × Timers × List Effect :=
  match data with
  | none => (none, tm, [Effect.answerCallback "Нажми 🚀 Начать действие"])
  | some d =>
      if d.step ≠ "result" then
        (some d, tm, [Effect.answerCallback "Нажми 🚀 Начать действие"])
      else if truthy d.result_msg_id = true ∧ d.result_msg_id ≠ some msgId then
        (some d, tm, [Effect.answerCallback "Это старое сообщение"])
      else if d.result_locked = true then
        (some d, tm, [Effect.answerCallback "Уже принято ✅"])
      else
        let focus := focus_fallback d
        let d1 := { d with result_locked := true }
        if cmd = "start" then
          (some { d1 with step := "started" },
           schedule_check (cancel_all_timers tm) 10,
           [Effect.editMarkup msgId,
            Effect.logEvent "started" (some focus),
            Effect.sendMessage ("🚀 Ты начал: <b>" ++ focus ++ "</b>"),
            Effect.sendMessage ("Мотивация: " ++ pick MOTIVATION_START_BY_TYPE d.focus_type rand),
            Effect.sendMessage "Я не буду отвлекать.\nЧерез 10 минут спрошу, как идёт.",
            Effect.answerCallback "Погнали 🔥"])
        else if cmd = "delay10" then
          (some { d1 with step := "idle" },
           schedule_remind (cancel_all_timers tm) 10,
           [Effect.editMarkup msgId,
            Effect.logEvent "delayed" (some "10m"),
            Effect.sendMessage "Ок.\nЯ напомню через 10 минут.",
            Effect.answerCallback "Ок ⏸"])
        else if cmd = "delay30" then
          if ¬(plan = "two_month" ∨ plan = "month" ∨ plan = "day") then
            (some { d1 with step := "idle" }, tm,
             [Effect.editMarkup msgId,
              Effect.sendMessage "🕒 30 минут доступно в Premium.",
              Effect.answerCallback "Ок"])
          else
            (some { d1 with step := "idle" },
             schedule_remind (cancel_all_timers tm) 30,
             [Effect.editMarkup msgId,
              Effect.logEvent "delayed" (some "30m"),
              Effect.sendMessage "Ок.\nЯ напомню через 30 минут.",
              Effect.answerCallback "Ок 🕒"])
        else if cmd = "skip" then
          (some { d1 with step := "idle" },
           cancel_all_timers tm,
           [Effect.editMarkup msgId,
            Effect.logEvent "skip" (some focus),
            Effect.sendMessage "Ок.\nИногда лучше не давить на себя.",
            Effect.answerCallback "Ок"])
        else
          (some d1, tm, [Effect.editMarkup msgId])

/-- Concrete data for witnesses: the spec's §8 scenario, energy = low. -/
def wAct1 : Action :=
  { name := "подготовить отчёт", type := some "mental",
    scores := [("influence", 5), ("urgency", 5), ("energy", 1), ("meaning", 5)] }

def wAct2 : Action :=
  { name := "разобрать почту", type := some "routine",
    scores := [("influence", 1), ("urgency", 1), ("energy", 5), ("meaning", 1)] }

def wAct3 : Action :=
  { name := "позвонить клиенту", type := some "social",
    scores := [("influence", 3), ("urgency", 3), ("energy", 3), ("meaning", 3)] }

def wC1Session : Session :=
  { step := "scoring", energy_now := some "low", energy_msg_id := some 1,
    energy_locked := true, actions := [wAct1, wAct2, wAct3], cur_action := 3,
    cur_crit := 0, expected_type_msg_id := none, answered_type_msgs := [],
    expected_score_msg_id := some 9, answered_score_msgs := [], focus := none,
    focus_type := none, result_msg_id := none, result_locked := false,
    check_count := 0 }

def wEmptySession : Session :=
  { step := "idle", energy_now := none, energy_msg_id := none,
    energy_locked := false, actions := [], cur_action := 0, cur_crit := 0,
    expected_type_msg_id := none, answered_type_msgs := [],
    expected_score_msg_id := none, answered_score_msgs := [], focus := none,
    focus_type := none, result_msg_id := none, result_locked := false,
    check_count := 0 }


/-- `MOTIVATION_OK_BY_TYPE` from src/main.py. -/
def MOTIVATION_OK_BY_TYPE (t : String) : List String :=
  if t = "mental" then
    ["Хорошо идёт. Не ускоряйся — просто держи темп ещё 10 минут.",
     "Продолжай. Главное — не переключаться."]
  else if t = "physical" then
    ["Отлично. Держи ровный ритм, без рывков.",
     "Ещё 10 минут — и будет чувство “я сделал”."]
  else if t = "routine" then
    ["Класс. Доведи до точки: “готово/отправлено/убрано”.",
     "Продолжай — рутина ломается только движением."]
  else if t = "social" then
    ["Отлично. Держи простоту и ясность — этого достаточно.",
     "Продолжай. Не усложняй формулировки."]
  else []

/-- `schedule_support_after_ok_two_month`: cancel-then-arm the `support`
timer for 10 minutes. -/
def schedule_support_after_ok_two_month (tm : Timers) : Timers :=
  { cancel_timer tm "support" with support := some 10 }

/-- The body of the `support` closure inside
`schedule_support_after_ok_two_month`, run when the timer fires: it
re-reads the plan and the session (abstracted as the `plan` and `data`
parameters), returns silently unless the plan is still two_month and a
session exists, otherwise sends the motivation and logs `support_sent`;
like the other closures it never touches the `timers` dict. -/
def fire_support (tm : Timers) (plan : String) (data : Option Session) (rand : ℕ) :
    Timers × List Effect :=
  if plan ≠ "two_month" then (tm, [])
  else
    match data with
    | none => (tm, [])
    | some d =>
        (tm, [Effect.sendMessage ("Мотивация: " ++ pick MOTIVATION_OK_BY_TYPE d.focus_type rand),
              Effect.logEvent "support_sent" (some "ok+10m")])

/-- Stale-press witness sessions: one per phase, each with a live binding
recorded under message id 5. -/
def wStaleEnergy : Session :=
  { reset_session with step := "energy", energy_msg_id := some 5 }

def wStaleTyping : Session :=
  { reset_session with step := "typing", expected_type_msg_id := some 5 }

def wStaleScoring : Session :=
  { reset_session with step := "scoring", expected_score_msg_id := some 5 }

def wStaleResult : Session :=
  { reset_session with step := "result", result_msg_id := some 5 }

/-- A participant with an armed `check` timer. -/
def wTimersArmed : Timers := { check := some 10, remind := none, support := none }

/-- A locked result-step session (first result press already consumed). -/
def wLockedResult : Session :=
  { reset_session with step := "result", result_msg_id := some 5, result_locked := true }

/-- A live, unlocked result-step session. -/
def wUnlockedResult : Session :=
  { reset_session with
    step := "result", result_msg_id := some 5,
    focus := some "задача", focus_type := some "mental" }

/-- A session waiting for the action list. -/
def wActionsSession : Session :=
  { reset_session with step := "actions", energy_now := some "low", energy_locked := true }

lemma energy_weight_pos (level : String) : 0 < energy_weight level := by
  unfold energy_weight
  split
  · norm_num
  · split
    · norm_num
    · split <;> norm_num

lemma scoreOk_lookup (a : Action) (k : String) (h : scoreOk a k = true) :
    ∃ v, a.scores.lookup k = some v ∧ 1 ≤ v ∧ v ≤ 5 := by
  unfold scoreOk at h
  cases hk : a.scores.lookup k with
  | none => rw [hk] at h; simp at h
  | some v =>
      rw [hk] at h
      simp only [Bool.and_eq_true, decide_eq_true_eq] at h
      exact ⟨v, rfl, h.1, h.2⟩

lemma well_scored_parts (a : Action) (h : well_scored a = true) :
    scoreOk a "influence" = true ∧ scoreOk a "urgency" = true ∧
    scoreOk a "energy" = true ∧ scoreOk a "meaning" = true := by
  unfold well_scored at h
  simp only [Bool.and_eq_true] at h
  exact ⟨h.1.1.1, h.1.1.2, h.1.2, h.2⟩

lemma action_total_eq (ew : ℚ) (a : Action) (h : well_scored a = true) :
    action_total ew a = some (totalD ew a) := by
  obtain ⟨hi, hu, he, hm⟩ := well_scored_parts a h
  obtain ⟨vi, hvi, -⟩ := scoreOk_lookup a "influence" hi
  obtain ⟨vu, hvu, -⟩ := scoreOk_lookup a "urgency" hu
  obtain ⟨ve, hve, -⟩ := scoreOk_lookup a "energy" he
  obtain ⟨vm, hvm, -⟩ := scoreOk_lookup a "meaning" hm
  unfold totalD action_total
  rw [hvi, hvu, hve, hvm]
  rfl

lemma totalD_pos (ew : ℚ) (a : Action) (hew : 0 ≤ ew) (h : well_scored a = true) :
    0 < totalD ew a := by
  obtain ⟨hi, hu, he, hm⟩ := well_scored_parts a h
  obtain ⟨vi, hvi, hvi1, hvi5⟩ := scoreOk_lookup a "influence" hi
  obtain ⟨vu, hvu, hvu1, hvu5⟩ := scoreOk_lookup a "urgency" hu
  obtain ⟨ve, hve, hve1, hve5⟩ := scoreOk_lookup a "energy" he
  obtain ⟨vm, hvm, hvm1, hvm5⟩ := scoreOk_lookup a "meaning" hm
  unfold totalD action_total
  rw [hvi, hvu, hve, hvm]
  simp only [Option.getD_some]
  have h1 : (1 : ℚ) ≤ (vi : ℚ) := by exact_mod_cast hvi1
  have h2 : (1 : ℚ) ≤ (vu : ℚ) := by exact_mod_cast hvu1
  have h3 : (1 : ℚ) ≤ (vm : ℚ) := by exact_mod_cast hvm1
  have h4 : (ve : ℚ) ≤ 5 := by exact_mod_cast hve5
  have h5 : 0 ≤ ((6 : ℚ) - (ve : ℚ)) * ew := mul_nonneg (by linarith) hew
  linarith

lemma totalD_spec (lvl : String) (a : Action) (hw : well_scored a = true)
    (hwt : energy_weight lvl = specWeight lvl) :
    totalD (energy_weight lvl) a = specTotal lvl a := by
  obtain ⟨hi, hu, he, hm⟩ := well_scored_parts a hw
  obtain ⟨vi, hvi, -⟩ := scoreOk_lookup a "influence" hi
  obtain ⟨vu, hvu, -⟩ := scoreOk_lookup a "urgency" hu
  obtain ⟨ve, hve, -⟩ := scoreOk_lookup a "energy" he
  obtain ⟨vm, hvm, -⟩ := scoreOk_lookup a "meaning" hm
  unfold totalD action_total specTotal scoreD
  rw [hvi, hvu, hve, hvm, hwt]
  simp only [Option.getD_some]

/-- Invariant of the left-to-right strict-improvement scan: either nothing in
the list beats the incumbent score and the accumulator survives, or the result
is the first element attaining the (strict over prefix) maximum. -/
lemma pick_best_loop_spec (ew : ℚ) (l : List Action) (best : Option Action) (bs : ℚ)
    (h : ∀ a ∈ l, well_scored a = true) :
    (pick_best_loop ew l best bs = some best ∧ ∀ a ∈ l, totalD ew a ≤ bs) ∨
    (∃ i, ∃ hi : i < l.length,
      pick_best_loop ew l best bs = some (some (l.get ⟨i, hi⟩)) ∧
      bs < totalD ew (l.get ⟨i, hi⟩) ∧
      (∀ j, ∀ hj : j < l.length, totalD ew (l.get ⟨j, hj⟩) ≤ totalD ew (l.get ⟨i, hi⟩)) ∧
      (∀ j, ∀ hj : j < i,
        totalD ew (l.get ⟨j, Nat.lt_trans hj hi⟩) < totalD ew (l.get ⟨i, hi⟩))) := by
  induction l generalizing best bs with
  | nil =>
      left
      exact ⟨rfl, by simp⟩
  | cons a rest ih =>
      have hwa : well_scored a = true := h a (List.mem_cons_self a rest)
      have hta : action_total ew a = some (totalD ew a) := action_total_eq ew a hwa
      have hrest : ∀ x ∈ rest, well_scored x = true :=
        fun x hx => h x (List.mem_cons_of_mem a hx)
      by_cases hcmp : bs < totalD ew a
      · have hstep : pick_best_loop ew (a :: rest) best bs
            = pick_best_loop ew rest (some a) (totalD ew a) := by
          simp [pick_best_loop, hta, hcmp]
        rcases ih (some a) (totalD ew a) hrest with ⟨heq, hle⟩ | ⟨i, hi, heq, hgt, hmax, hfirst⟩
        · right
          refine ⟨0, by simp, ?_, by simpa using hcmp, ?_, ?_⟩
          · rw [hstep, heq]; rfl
          · intro j hj
            cases j with
            | zero => simp
            | succ j =>
                simp only [List.get_cons_succ, List.get_cons_zero]
                exact hle _ (List.get_mem rest _ _)
          · intro j hj
            exact absurd hj (Nat.not_lt_zero j)
        · right
          refine ⟨i + 1, by simpa using Nat.succ_lt_succ hi, ?_, ?_, ?_, ?_⟩
          · rw [hstep, heq]; simp
          · simpa using lt_trans hcmp hgt
          · intro j hj
            cases j with
            | zero =>
                simp only [List.get_cons_succ, List.get_cons_zero]
                exact le_of_lt hgt
            | succ j =>
                simp only [List.get_cons_succ]
                exact hmax j (Nat.lt_of_succ_lt_succ hj)
          · intro j hj
            cases j with
            | zero =>
                simp only [List.get_cons_succ, List.get_cons_zero]
                exact hgt
            | succ j =>
                simp only [List.get_cons_succ]
                exact hfirst j (Nat.lt_of_succ_lt_succ hj)
      · have hstep : pick_best_loop ew (a :: rest) best bs
            = pick_best_loop ew rest best bs := by
          simp [pick_best_loop, hta, hcmp]
        rcases ih best bs hrest with ⟨heq, hle⟩ | ⟨i, hi, heq, hgt, hmax, hfirst⟩
        · left
          refine ⟨by rw [hstep, heq], ?_⟩
          intro x hx
          rcases List.mem_cons.mp hx with hx | hx
          · subst hx; exact not_lt.mp hcmp
          · exact hle x hx
        · right
          refine ⟨i + 1, by simpa using Nat.succ_lt_succ hi, ?_, ?_, ?_, ?_⟩
          · rw [hstep, heq]; simp
          · simpa using hgt
          · intro j hj
            cases j with
            | zero =>
                simp only [List.get_cons_succ, List.get_cons_zero]
                exact le_of_lt (lt_of_le_of_lt (not_lt.mp hcmp) hgt)
            | succ j =>
                simp only [List.get_cons_succ]
                exact hmax j (Nat.lt_of_succ_lt_succ hj)
          · intro j hj
            cases j with
            | zero =>
                simp only [List.get_cons_succ, List.get_cons_zero]
                exact lt_of_le_of_lt (not_lt.mp hcmp) hgt
            | succ j =>
                simp only [List.get_cons_succ]
                exact hfirst j (Nat.lt_of_succ_lt_succ hj)

/-- C1: for every action list of size 3–7 whose actions all carry the four
criterion scores in 1–5 and for every energy level, `pick_best_local` returns
the first action in list order whose spec total
`influence*2 + urgency*2 + meaning*1 + (6 − energy) * weight` (weight 2.0 for
low, 1.0 for mid, 0.6 for high, per `specWeight`) is maximal; ties resolve to
the earliest action via the strict `>` left-to-right scan. -/
theorem c1_pick_best_first_argmax (d : Session) (lvl : String)
    (hlvl : lvl = "low" ∨ lvl = "mid" ∨ lvl = "high")
    (hen : d.energy_now = some lvl)
    (h3 : 3 ≤ d.actions.length) (h7 : d.actions.length ≤ 7)
    (hws : ∀ a ∈ d.actions, well_scored a = true) :
    energy_weight lvl = specWeight lvl ∧
    ∃ i, ∃ hi : i < d.actions.length,
      pick_best_local d = some (some (d.actions.get ⟨i, hi⟩)) ∧
      (∀ j, ∀ hj : j < d.actions.length,
        specTotal lvl (d.actions.get ⟨j, hj⟩) ≤ specTotal lvl (d.actions.get ⟨i, hi⟩)) ∧
      (∀ j, ∀ hj : j < i,
        specTotal lvl (d.actions.get ⟨j, Nat.lt_trans hj hi⟩) <
          specTotal lvl (d.actions.get ⟨i, hi⟩)) := by
  have hwt : energy_weight lvl = specWeight lvl := by
    rcases hlvl with h | h | h <;> subst h <;> norm_num [energy_weight, specWeight]
  refine ⟨hwt, ?_⟩
  have hpb : pick_best_local d
      = pick_best_loop (energy_weight lvl) d.actions none (-(10 ^ 9 : ℚ)) := by
    simp only [pick_best_local, hen, Option.getD_some]
  rcases pick_best_loop_spec (energy_weight lvl) d.actions none (-(10 ^ 9 : ℚ)) hws with
    ⟨heq, hle⟩ | ⟨i, hi, heq, hgt, hmax, hfirst⟩
  · exfalso
    have h0 : 0 < d.actions.length := by omega
    have hmem := List.get_mem d.actions 0 h0
    have h1 := hle _ hmem
    have h2 := totalD_pos (energy_weight lvl) _
      (le_of_lt (energy_weight_pos lvl)) (hws _ hmem)
    have h3 : -(10 ^ 9 : ℚ) < 0 := by norm_num
    linarith
  · refine ⟨i, hi, by rw [hpb, heq], ?_, ?_⟩
    · intro j hj
      have h1 := hmax j hj
      rwa [totalD_spec lvl _ (hws _ (List.get_mem d.actions j hj)) hwt,
        totalD_spec lvl _ (hws _ (List.get_mem d.actions i hi)) hwt] at h1
    · intro j hj
      have h1 := hfirst j hj
      rwa [totalD_spec lvl _ (hws _ (List.get_mem d.actions j (Nat.lt_trans hj hi))) hwt,
        totalD_spec lvl _ (hws _ (List.get_mem d.actions i hi)) hwt] at h1

theorem c1_witness :
    energy_weight "low" = specWeight "low" ∧
    ∃ i, ∃ hi : i < wC1Session.actions.length,
      pick_best_local wC1Session = some (some (wC1Session.actions.get ⟨i, hi⟩)) ∧
      (∀ j, ∀ hj : j < wC1Session.actions.length,
        specTotal "low" (wC1Session.actions.get ⟨j, hj⟩) ≤
          specTotal "low" (wC1Session.actions.get ⟨i, hi⟩)) ∧
      (∀ j, ∀ hj : j < i,
        specTotal "low" (wC1Session.actions.get ⟨j, Nat.lt_trans hj hi⟩) <
          specTotal "low" (wC1Session.actions.get ⟨i, hi⟩)) :=
  c1_pick_best_first_argmax wC1Session "low" (Or.inl rfl) rfl (by decide) (by decide)
    (by decide)

/-- C2: for every energy level (hence every weight `energy_weight` can
select) and every pair of actions identical except for a strictly lower
`energy` criterion score, the lower-energy action has a strictly greater
total in `pick_best_local`'s scoring. -/
theorem c2_lower_energy_strictly_greater (lvl : String) (a1 a2 : Action)
    (i u m e1 e2 : ℕ)
    (hi1 : a1.scores.lookup "influence" = some i)
    (hi2 : a2.scores.lookup "influence" = some i)
    (hu1 : a1.scores.lookup "urgency" = some u)
    (hu2 : a2.scores.lookup "urgency" = some u)
    (hm1 : a1.scores.lookup "meaning" = some m)
    (hm2 : a2.scores.lookup "meaning" = some m)
    (he1 : a1.scores.lookup "energy" = some e1)
    (he2 : a2.scores.lookup "energy" = some e2)
    (hlt : e1 < e2) :
    ∃ t1 t2 : ℚ, action_total (energy_weight lvl) a1 = some t1 ∧
      action_total (energy_weight lvl) a2 = some t2 ∧ t2 < t1 := by
  refine ⟨(i : ℚ) * 2 + (u : ℚ) * 2 + (m : ℚ) * 1 + ((6 : ℚ) - (e1 : ℚ)) * energy_weight lvl,
          (i : ℚ) * 2 + (u : ℚ) * 2 + (m : ℚ) * 1 + ((6 : ℚ) - (e2 : ℚ)) * energy_weight lvl,
          ?_, ?_, ?_⟩
  · unfold action_total; rw [he1, hi1, hu1, hm1]
  · unfold action_total; rw [he2, hi2, hu2, hm2]
  · have hw := energy_weight_pos lvl
    have hc : (e1 : ℚ) < (e2 : ℚ) := by exact_mod_cast hlt
    have key : ((6 : ℚ) - (e1 : ℚ)) * energy_weight lvl
        - ((6 : ℚ) - (e2 : ℚ)) * energy_weight lvl
        = ((e2 : ℚ) - (e1 : ℚ)) * energy_weight lvl := by ring
    have hpos : 0 < ((e2 : ℚ) - (e1 : ℚ)) * energy_weight lvl :=
      mul_pos (by linarith) hw
    linarith

def wLowEnergyAct : Action :=
  { name := "лёгкая задача", type := none,
    scores := [("influence", 4), ("urgency", 3), ("energy", 1), ("meaning", 2)] }

def wHighEnergyAct : Action :=
  { name := "лёгкая задача", type := none,
    scores := [("influence", 4), ("urgency", 3), ("energy", 4), ("meaning", 2)] }

theorem c2_witness :
    ∃ t1 t2 : ℚ, action_total (energy_weight "high") wLowEnergyAct = some t1 ∧
      action_total (energy_weight "high") wHighEnergyAct = some t2 ∧ t2 < t1 :=
  c2_lower_energy_strictly_greater "high" wLowEnergyAct wHighEnergyAct 4 3 2 1 4
    rfl rfl rfl rfl rfl rfl rfl rfl (by decide)

/-- C10: `pick_best_local` on a session with an empty actions list returns
the Python `None` (modelled `some none`: it terminates and yields no action);
whenever the list is non-empty and fully scored, the result is an element of
the input list. -/
theorem c10_optional_result (d : Session) :
    (d.actions = [] → pick_best_local d = some none) ∧
    (d.actions ≠ [] → (∀ a ∈ d.actions, well_scored a = true) →
      ∃ a ∈ d.actions, pick_best_local d = some (some a)) := by
  constructor
  · intro hnil
    unfold pick_best_local
    rw [hnil]
    rfl
  · intro hne hws
    rcases pick_best_loop_spec (energy_weight (d.energy_now.getD "mid")) d.actions none
        (-(10 ^ 9 : ℚ)) hws with ⟨heq, hle⟩ | ⟨i, hi, heq, -, -, -⟩
    · exfalso
      obtain ⟨a, ha⟩ := List.exists_mem_of_ne_nil d.actions hne
      have h1 := hle a ha
      have h2 := totalD_pos (energy_weight (d.energy_now.getD "mid")) a
        (le_of_lt (energy_weight_pos (d.energy_now.getD "mid"))) (hws a ha)
      have h3 : -(10 ^ 9 : ℚ) < 0 := by norm_num
      linarith
    · exact ⟨d.actions.get ⟨i, hi⟩, List.get_mem d.actions i hi, by
        unfold pick_best_local; exact heq⟩

theorem c10_witness :
    pick_best_local wEmptySession = some none ∧
    ∃ a ∈ wC1Session.actions, pick_best_local wC1Session = some (some a) :=
  ⟨(c10_optional_result wEmptySession).1 rfl,
   (c10_optional_result wC1Session).2 (by decide) (by decide)⟩

/-- C3: in every phase (energy, type, score, result) with a recorded live
prompt binding, a button press whose parent message id differs from the
binding is answered "Это старое сообщение", leaves every session field (and
the timers) unchanged, and emits no new prompt message: the only effect is
the stale answer. -/
theorem c3_stale_press_no_op (d : Session) (tm : Timers)
    (plan lvl t cmd : String) (score msgId b freshId rand : ℕ)
    (hb : b ≠ 0) (hne : msgId ≠ b) :
    (d.step = "energy" → d.energy_msg_id = some b →
      energy_pick (some d) msgId lvl
        = (some d, [Effect.answerCallback "Это старое сообщение"])) ∧
    (d.step = "typing" → d.expected_type_msg_id = some b →
      type_pick (some d) msgId t freshId
        = some (some d, [Effect.answerCallback "Это старое сообщение"])) ∧
    (d.step = "scoring" → d.expected_score_msg_id = some b →
      score_pick (some d) msgId score freshId
        = some (some d, [Effect.answerCallback "Это старое сообщение"])) ∧
    (d.step = "result" → d.result_msg_id = some b →
      result_actions (some d) tm plan msgId cmd rand
        = (some d, tm, [Effect.answerCallback "Это старое сообщение"])) := by
  have hsym : b ≠ msgId := Ne.symm hne
  refine ⟨?_, ?_, ?_, ?_⟩ <;> intro hstep hbind
  · simp [energy_pick, hstep, hbind, truthy, hb, hsym]
  · simp [type_pick, hstep, hbind, truthy, hb, hsym]
  · simp [score_pick, hstep, hbind, truthy, hb, hsym]
  · simp [result_actions, hstep, hbind, truthy, hb, hsym]

theorem c3_witness :
    energy_pick (some wStaleEnergy) 6 "low"
      = (some wStaleEnergy, [Effect.answerCallback "Это старое сообщение"]) ∧
    type_pick (some wStaleTyping) 6 "mental" 100
      = some (some wStaleTyping, [Effect.answerCallback "Это старое сообщение"]) ∧
    score_pick (some wStaleScoring) 6 4 100
      = some (some wStaleScoring, [Effect.answerCallback "Это старое сообщение"]) ∧
    result_actions (some wStaleResult) wTimersArmed "free" 6 "start" 0
      = (some wStaleResult, wTimersArmed, [Effect.answerCallback "Это старое сообщение"]) :=
  ⟨(c3_stale_press_no_op wStaleEnergy wTimersArmed "free" "low" "mental" "start" 4 6 5 100 0
      (by decide) (by decide)).1 rfl rfl,
   (c3_stale_press_no_op wStaleTyping wTimersArmed "free" "low" "mental" "start" 4 6 5 100 0
      (by decide) (by decide)).2.1 rfl rfl,
   (c3_stale_press_no_op wStaleScoring wTimersArmed "free" "low" "mental" "start" 4 6 5 100 0
      (by decide) (by decide)).2.2.1 rfl rfl,
   (c3_stale_press_no_op wStaleResult wTimersArmed "free" "low" "mental" "start" 4 6 5 100 0
      (by decide) (by decide)).2.2.2 rfl rfl⟩

/-- C4: once `result_locked` is true in the result step, any result-button
press (any token, any source message id) leaves the session and the armed
timers unchanged and sends no message; a press bound to the live result
message is answered "Уже принято ✅" and nothing else. -/
theorem c4_locked_result_press_no_op (d : Session) (tm : Timers)
    (plan cmd : String) (msgId rand : ℕ)
    (hstep : d.step = "result") (hlock : d.result_locked = true) :
    (result_actions (some d) tm plan msgId cmd rand).1 = some d ∧
    (result_actions (some d) tm plan msgId cmd rand).2.1 = tm ∧
    (∀ s, Effect.sendMessage s ∉ (result_actions (some d) tm plan msgId cmd rand).2.2) ∧
    (d.result_msg_id = some msgId →
      result_actions (some d) tm plan msgId cmd rand
        = (some d, tm, [Effect.answerCallback "Уже принято ✅"])) := by
  by_cases hstale : truthy d.result_msg_id = true ∧ d.result_msg_id ≠ some msgId
  · have hr : result_actions (some d) tm plan msgId cmd rand
        = (some d, tm, [Effect.answerCallback "Это старое сообщение"]) := by
      simp [result_actions, hstep, hstale]
    refine ⟨by rw [hr], by rw [hr], ?_, ?_⟩
    · intro s
      rw [hr]
      simp
    · intro him
      exact absurd him hstale.2
  · have hr : result_actions (some d) tm plan msgId cmd rand
        = (some d, tm, [Effect.answerCallback "Уже принято ✅"]) := by
      simp [result_actions, hstep, hstale, hlock]
    refine ⟨by rw [hr], by rw [hr], ?_, fun _ => hr⟩
    intro s
    rw [hr]
    simp

theorem c4_witness :
    result_actions (some wLockedResult) wTimersArmed "free" 5 "skip" 0
      = (some wLockedResult, wTimersArmed, [Effect.answerCallback "Уже принято ✅"]) :=
  (c4_locked_result_press_no_op wLockedResult wTimersArmed "free" "skip" 5 0 rfl rfl).2.2.2 rfl

/-- C5 counterexample: a skip press on the live, unlocked result message
does NOT leave the armed timers as they were — it cancels them.  With the
`check` timer armed (10 minutes), after the skip press the `check` entry is
gone, refuting "cancelling no callbacks". -/
theorem c5_counterexample :
    wTimersArmed.check = some 10 ∧
    (result_actions (some wUnlockedResult) wTimersArmed "free" 5 "skip" 0).2.1.check = none := by
  exact ⟨rfl, rfl⟩

/-- C5 (amended): a skip press on the live, unlocked result message emits
the acknowledgment and moves the step to idle, but it calls
`cancel_all_timers`: every previously armed check/remind/support timer is
cancelled, not preserved. -/
theorem c5_skip_cancels_all_timers (d : Session) (tm : Timers) (plan : String)
    (msgId rand : ℕ) (hstep : d.step = "result") (hlock : d.result_locked = false)
    (hbind : d.result_msg_id = some msgId) :
    result_actions (some d) tm plan msgId "skip" rand =
      (some { d with result_locked := true, step := "idle" },
       { check := none, remind := none, support := none },
       [Effect.editMarkup msgId,
        Effect.logEvent "skip" (some (focus_fallback d)),
        Effect.sendMessage "Ок.\nИногда лучше не давить на себя.",
        Effect.answerCallback "Ок"]) := by
  have hstale : ¬(truthy d.result_msg_id = true ∧ d.result_msg_id ≠ some msgId) := by
    rw [hbind]
    simp
  simp [result_actions, hstep, hstale, hlock, cancel_all_timers, cancel_timer]

theorem c5_witness :
    result_actions (some wUnlockedResult) wTimersArmed "free" 5 "skip" 0 =
      (some { wUnlockedResult with result_locked := true, step := "idle" },
       { check := none, remind := none, support := none },
       [Effect.editMarkup 5,
        Effect.logEvent "skip" (some (focus_fallback wUnlockedResult)),
        Effect.sendMessage "Ок.\nИногда лучше не давить на себя.",
        Effect.answerCallback "Ок"]) :=
  c5_skip_cancels_all_timers wUnlockedResult wTimersArmed "free" 5 0 rfl rfl rfl

/-- C6: a `res:delay30` press on the live, unlocked result message by a
participant whose effective plan has no 30-minute delay (not day, month or
two_month) yields the Premium-only explanation, moves the step to idle, and
arms (indeed touches) no timer. -/
theorem c6_delay30_premium_only (d : Session) (tm : Timers) (plan : String)
    (msgId rand : ℕ) (hstep : d.step = "result") (hlock : d.result_locked = false)
    (hbind : d.result_msg_id = some msgId)
    (h1 : plan ≠ "two_month") (h2 : plan ≠ "month") (h3 : plan ≠ "day") :
    result_actions (some d) tm plan msgId "delay30" rand =
      (some { d with result_locked := true, step := "idle" }, tm,
       [Effect.editMarkup msgId,
        Effect.sendMessage "🕒 30 минут доступно в Premium.",
        Effect.answerCallback "Ок"]) := by
  have hstale : ¬(truthy d.result_msg_id = true ∧ d.result_msg_id ≠ some msgId) := by
    rw [hbind]
    simp
  simp [result_actions, hstep, hstale, hlock, h1, h2, h3]

theorem c6_witness :
    result_actions (some wUnlockedResult) wTimersArmed "week" 5 "delay30" 0 =
      (some { wUnlockedResult with result_locked := true, step := "idle" }, wTimersArmed,
       [Effect.editMarkup 5,
        Effect.sendMessage "🕒 30 минут доступно в Premium.",
        Effect.answerCallback "Ок"]) :=
  c6_delay30_premium_only wUnlockedResult wTimersArmed "week" 5 0 rfl rfl rfl
    (by decide) (by decide) (by decide)

/-- C7: a non-admin participant on the free effective plan with at least 3
logged "focus" events today is denied: `can_use_today` returns false with a
message naming the cap "3" and the tier "Free", and `start_energy_flow`
performs no state mutation — no session replace, no timer cancellation, no
log append — only the denial message is sent. -/
theorem c7_free_cap_denial (sess : Option Session) (tm : Timers)
    (used energyMsgId : ℕ) (hused : 3 ≤ used) :
    (can_use_today false "free" used).1 = false ∧
    "3".data <:+: (can_use_today false "free" used).2.data ∧
    "Free".data <:+: (can_use_today false "free" used).2.data ∧
    start_energy_flow sess tm false "free" used energyMsgId
      = (sess, tm, [Effect.sendMessage (can_use_today false "free" used).2]) := by
  have hlt : ¬ used < FREE_DAILY_USES := by
    unfold FREE_DAILY_USES
    omega
  have hc : can_use_today false "free" used
      = (false, "⛔ Лимит на сегодня исчерпан.\nПлан: <b>Free</b>\nЛимит: <b>3</b> раза/день.") := by
    simp [can_use_today, hlt]
    decide
  refine ⟨by rw [hc], ?_, ?_, ?_⟩
  · rw [hc]
    decide
  · rw [hc]
    decide
  · simp [start_energy_flow, hc]

theorem c7_witness :
    (can_use_today false "free" 3).1 = false ∧
    "3".data <:+: (can_use_today false "free" 3).2.data ∧
    "Free".data <:+: (can_use_today false "free" 3).2.data ∧
    start_energy_flow (some wEmptySession) wTimersArmed false "free" 3 77
      = (some wEmptySession, wTimersArmed, [Effect.sendMessage (can_use_today false "free" 3).2]) :=
  c7_free_cap_denial (some wEmptySession) wTimersArmed 3 77 (by decide)

/-- C8 counterexample: `actions_input` validates only the 3–7 line count,
not the spec's name length ≥ 2: the message "a\nb\nc" is accepted, moves the
step to typing, and creates actions whose names have length 1. -/
theorem c8_counterexample :
    ∃ d2 effs, actions_input wActionsSession "a\nb\nc" 100 = some (d2, effs) ∧
      d2.step = "typing" ∧ ∃ a ∈ d2.actions, a.name.length < 2 := by
  refine ⟨_, _, rfl, rfl, ?_⟩
  decide

/-- C8 (amended): in the actions step, a text equal to a reserved menu
command is ignored silently; any other text is rejected with the corrective
prompt and an unchanged session unless it splits into 3–7 non-empty trimmed
lines; on success each line becomes one Action with unset type, empty scores
and a non-empty (not necessarily length ≥ 2) name, the cursors reset to the
first action and first criterion, the step becomes typing, and the fresh
type prompt is bound. -/
theorem c8_actions_input_amended (d : Session) (text : String) (freshId : ℕ)
    (_hstep : d.step = "actions") :
    (py_strip text ∈ MENU_TEXTS → actions_input d text freshId = some (d, [])) ∧
    (py_strip text ∉ MENU_TEXTS →
      ((((py_split_newline text).map py_strip).filter (fun x => x != "")).length < 3 ∨
        (((py_split_newline text).map py_strip).filter (fun x => x != "")).length > 7) →
      actions_input d text freshId
        = some (d, [Effect.sendMessage "Нужно <b>3–7</b> действий. Каждое с новой строки."])) ∧
    (py_strip text ∉ MENU_TEXTS →
      ∀ a0 as, ((py_split_newline text).map py_strip).filter (fun x => x != "") = a0 :: as →
      3 ≤ (a0 :: as).length → (a0 :: as).length ≤ 7 →
      actions_input d text freshId = some
        ({ d with
            actions := (a0 :: as).map (fun s => { name := s, type := none, scores := [] }),
            cur_action := 0, cur_crit := 0, step := "typing",
            answered_type_msgs := [], expected_type_msg_id := some freshId },
         [Effect.logEvent "actions_count" (some (toString (a0 :: as).length)),
          Effect.sendMessage ("Выбери тип для:\n<b>" ++ a0 ++ "</b>")])) ∧
    (∀ x ∈ ((py_split_newline text).map py_strip).filter (fun x => x != ""), x ≠ "") := by
  refine ⟨?_, ?_, ?_, ?_⟩
  · intro hmenu
    simp [actions_input, hmenu]
  · intro hmenu hlen
    simp only [actions_input, if_neg hmenu]
    rw [if_pos hlen]
  · intro hmenu a0 as hL h3 h7
    have hlen : ¬((((py_split_newline text).map py_strip).filter (fun x => x != "")).length < 3 ∨
        (((py_split_newline text).map py_strip).filter (fun x => x != "")).length > 7) := by
      rw [hL]
      omega
    simp only [actions_input, if_neg hmenu]
    rw [if_neg hlen, hL]
    simp [ask_action_type]
  · intro x hx
    simpa using (List.mem_filter.mp hx).2

theorem c8_witness :
    actions_input wActionsSession "почитать главу\nубрать стол\nнаписать письмо" 42 = some
      ({ wActionsSession with
          actions := [{ name := "почитать главу", type := none, scores := [] },
            { name := "убрать стол", type := none, scores := [] },
            { name := "написать письмо", type := none, scores := [] }],
          cur_action := 0, cur_crit := 0, step := "typing",
          answered_type_msgs := [], expected_type_msg_id := some 42 },
       [Effect.logEvent "actions_count" (some "3"),
        Effect.sendMessage "Выбери тип для:\n<b>почитать главу</b>"]) :=
  (c8_actions_input_amended wActionsSession "почитать главу\nубрать стол\nнаписать письмо" 42
      rfl).2.2.1 (by decide) "почитать главу" ["убрать стол", "написать письмо"]
    (by decide) (by decide) (by decide)

/-- C9 counterexample: when an armed `check` callback fires, it is NOT
removed from the participant's callback set — neither before nor after its
side effect: the body only sends and logs, and the armed entry is still
present after the fire completes. -/
theorem c9_counterexample :
    wTimersArmed.check = some 10 ∧
    (fire_check wTimersArmed 10).1.check = some 10 ∧
    (fire_check wTimersArmed 10).2 ≠ [] := by
  refine ⟨rfl, rfl, by decide⟩

/-- C9 (amended): a firing `check`, `remind` or `support` callback performs
its side effect (the kind-specific send plus log append; for `support` only
when the plan is still two_month and a session exists, else nothing) but
leaves the timers set completely unchanged: the fired entry is not removed,
neither before nor after the side effect, and persists until the next
`cancel_timer` or re-arm of that kind. -/
theorem c9_fire_leaves_set (tm : Timers) (minutes rand : ℕ) (plan : String)
    (data : Option Session) (d : Session) :
    (fire_check tm minutes).1 = tm ∧
    (fire_remind tm minutes).1 = tm ∧
    (fire_support tm plan data rand).1 = tm ∧
    (∃ s v, (fire_check tm minutes).2 = [Effect.sendMessage s, Effect.logEvent "check_sent" v]) ∧
    (∃ s v, (fire_remind tm minutes).2
      = [Effect.sendMessage s, Effect.logEvent "reminder_sent" v]) ∧
    (∃ s, (fire_support tm "two_month" (some d) rand).2
      = [Effect.sendMessage s, Effect.logEvent "support_sent" (some "ok+10m")]) ∧
    cancel_timer (fire_check tm minutes).1 "check" = { tm with check := none } ∧
    cancel_timer (fire_support tm plan data rand).1 "support" = { tm with support := none } ∧
    schedule_support_after_ok_two_month (fire_support tm plan data rand).1
      = { tm with support := some 10 } := by
  have hsup : (fire_support tm plan data rand).1 = tm := by
    unfold fire_support
    split
    · rfl
    · cases data <;> rfl
  refine ⟨rfl, rfl, hsup, ⟨_, _, rfl⟩, ⟨_, _, rfl⟩, ⟨_, rfl⟩, rfl, ?_, ?_⟩
  · rw [hsup]
    rfl
  · rw [hsup]
    rfl

end FocusBot
